import Mathlib

/-!
# Landing-page downtime detector: the monitoring engine of `server.js`

A shallow embedding of the monitoring core of `src/server.js`:
`getRisk`, `normalizeError`, `checkDns`, `checkHttp`, `evaluateStatus`,
`recordHistory`, `performCheck` and the initialisation of the two stores.

Modelling conventions.
* JavaScript strings are Lean `String`s; the status, risk and record-type tags
  stay the string literals of the source (`"LIVE"`, `"High"`, `"CNAME"`, ...).
* A call that may throw (`resolveCname`, `resolve4`, `fetch`) is an
  `Except Thrown _`: `.ok` is the resolved value, `.error` the thrown value.
* The outside world of one check (resolver answers, HTTP answer, clock) is a
  `World`; the code after `await Promise.all(...)` in `performCheck` has no
  further suspension point, so one completed check is one atomic store update.
* A JavaScript `Map` is an insertion-ordered association list with unique keys
  (`JsMap`): `set` on a present key replaces the value in place, `set` on an
  absent key appends.
-/

namespace Monitor

/-! ## Constants -/

/-- The constant `EXPECTED_A_RECORD`. -/
def EXPECTED_A_RECORD : String := "76.76.21.21"

/-- The constant `EXPECTED_CNAME_SUFFIX`. -/
def EXPECTED_CNAME_SUFFIX : String := ".vercel-dns.com"

/-! ## Data model -/

/-- One registry entry (an element of `landingPages`). -/
structure Page where
  id : String
  domain : String
  client : String
  project : String
  environment : String
  deriving DecidableEq, Repr

/-- The registry `landingPages` of the source. -/
def landingPages : List Page :=
  [ { id := "lp-1", domain := "example.com", client := "Acme Co",
      project := "Spring Campaign", environment := "production" },
    { id := "lp-2", domain := "offer.com", client := "Bright Labs",
      project := "Lead Gen", environment := "campaign" } ]

/-- A value caught by a `catch` clause: an `Error` object with its `message`,
or any other thrown value together with its `String(...)` rendering. -/
inductive Thrown where
  | error (message : String)
  | other (rendered : String)
  deriving DecidableEq, Repr

/-- Result object of `checkDns`: `{ ok, type, details }`. -/
structure DnsResult where
  ok : Bool
  type : String
  details : String
  deriving DecidableEq, Repr

/-- Result object of `checkHttp`: `{ ok, reason }`. -/
structure HttpResult where
  ok : Bool
  reason : String
  deriving DecidableEq, Repr

/-- Result object of `evaluateStatus`: `{ status, reason }`. -/
structure StatusVerdict where
  status : String
  reason : String
  deriving DecidableEq, Repr

/-- Value of the `state` map: `{ status, reason, lastChecked, risk }`;
`lastChecked` is `null` (`none`) or an ISO timestamp. -/
structure PageStatus where
  status : String
  reason : String
  lastChecked : Option String
  risk : String
  deriving DecidableEq, Repr

/-- Element of a `history` list: `{ ...evaluation, lastChecked, dns, http }`. -/
structure CheckRecord where
  status : String
  reason : String
  lastChecked : String
  dns : DnsResult
  http : HttpResult
  deriving DecidableEq, Repr

/-- The fields of a `fetch` response that `checkHttp` reads. -/
structure Response where
  type : String
  status : Nat
  deriving DecidableEq, Repr

/-- The outside world during one check: what `resolveCname(domain)`,
`resolve4(domain)` and `fetch(url, { redirect: "manual" })` settle to, and
what `new Date().toISOString()` returns. -/
structure World where
  resolveCname : String → Except Thrown (List String)
  resolve4 : String → Except Thrown (List String)
  fetch : String → Except Thrown Response
  now : String

/-! ## JavaScript `Map` -/

/-- An insertion-ordered association list standing for a JavaScript `Map`
with string keys. -/
structure JsMap (V : Type) where
  entries : List (String × V)
  deriving Repr

namespace JsMap

variable {V : Type}

/-- The map `new Map()`. -/
def empty : JsMap V := ⟨[]⟩

/-- List-level lookup of the first binding of a key. -/
def lookup (k : String) : List (String × V) → Option V
  | [] => none
  | (k', v) :: rest => if k' = k then some v else lookup k rest

/-- List-level update: replace the value of the first binding of `k`, or
append a new binding when there is none. -/
def update (k : String) (v : V) : List (String × V) → List (String × V)
  | [] => [(k, v)]
  | (k', v') :: rest => if k' = k then (k', v) :: rest else (k', v') :: update k v rest

/-- The method `Map.prototype.get`; `undefined` is `none`. -/
def get (m : JsMap V) (k : String) : Option V := lookup k m.entries

/-- The method `Map.prototype.set`. -/
def set (m : JsMap V) (k : String) (v : V) : JsMap V := ⟨update k v m.entries⟩

/-- The keys of the map, in insertion order. -/
def keys (m : JsMap V) : List String := m.entries.map Prod.fst

end JsMap

/-- The two module-level maps `state` and `history`. -/
structure Store where
  state : JsMap PageStatus
  history : JsMap (List CheckRecord)

/-! ## Operations -/

/-- The function `emptyStatus`. -/
def emptyStatus : PageStatus :=
  { status := "UNKNOWN", reason := "Pending first check", lastChecked := none,
    risk := "Unknown" }

/-- The function `getRisk`. -/
def getRisk (status : String) : String :=
  if status = "LIVE" then "Safe" else if status = "DOWN" then "High" else "Unknown"

/-- The function `normalizeError`:
`error instanceof Error ? error.message : String(error)`. -/
def normalizeError : Thrown → String
  | .error message => message
  | .other rendered => rendered

/-- The method `String.prototype.endsWith` (one argument). -/
def endsWith (s suffix : String) : Bool := suffix.data.isSuffixOf s.data

/-- The A-record step of `checkDns` (second `try` block and the final
`return result`); `details` is the current `result.details`. -/
def checkDnsA (w : World) (domain : String) (details : String) : DnsResult :=
  match w.resolve4 domain with
  | .ok addresses =>
    if addresses.length ≠ 0 then
      let isMatch := addresses.contains EXPECTED_A_RECORD
      { ok := isMatch, type := "A",
        details := if isMatch then "A record matches " ++ EXPECTED_A_RECORD
                   else "A record does not include " ++ EXPECTED_A_RECORD }
    else { ok := false, type := "NONE", details := details }
  | .error error => { ok := false, type := "NONE", details := normalizeError error }

/-- The function `checkDns`. -/
def checkDns (w : World) (domain : String) : DnsResult :=
  match w.resolveCname domain with
  | .ok cnames =>
    if cnames.length ≠ 0 then
      let isMatch := cnames.any (fun record => endsWith record EXPECTED_CNAME_SUFFIX)
      { ok := isMatch, type := "CNAME",
        details := if isMatch then "CNAME points to " ++ EXPECTED_CNAME_SUFFIX
                   else "CNAME does not point to " ++ EXPECTED_CNAME_SUFFIX }
    else checkDnsA w domain "No DNS records found"
  | .error error => checkDnsA w domain (normalizeError error)

/-- The function `checkHttp`. -/
def checkHttp (w : World) (domain : String) : HttpResult :=
  let url := "https://" ++ domain
  match w.fetch url with
  | .ok response =>
    if response.type = "opaqueredirect" ∨ (response.status ≥ 300 ∧ response.status < 400) then
      { ok := false, reason := "Unexpected redirect (" ++ toString response.status ++ ")" }
    else if response.status ≠ 200 then
      { ok := false, reason := "HTTP " ++ toString response.status }
    else { ok := true, reason := "HTTP 200" }
  | .error error => { ok := false, reason := "SSL/HTTPS error: " ++ normalizeError error }

/-- The function `evaluateStatus`. -/
def evaluateStatus (dns : DnsResult) (http : HttpResult) : StatusVerdict :=
  if !dns.ok then { status := "DOWN", reason := dns.details }
  else if !http.ok then { status := "DOWN", reason := http.reason }
  else { status := "LIVE", reason := "All checks passed" }

/-- The function `recordHistory`: `unshift` the entry onto the list of
`pageId` (or onto a fresh list) and store `slice(0, 100)` of it. -/
def recordHistory (pageId : String) (entry : CheckRecord) (s : Store) : Store :=
  let entries := (s.history.get pageId).getD []
  let entries := entry :: entries
  { s with history := s.history.set pageId (entries.take 100) }

/-- The function `performCheck`, in the world `w` its awaited calls settle in. -/
def performCheck (w : World) (page : Page) (s : Store) : Store :=
  let dns := checkDns w page.domain
  let http := checkHttp w page.domain
  let evaluation := evaluateStatus dns http
  let lastChecked := w.now
  let record : CheckRecord :=
    { status := evaluation.status, reason := evaluation.reason,
      lastChecked := lastChecked, dns := dns, http := http }
  let status : PageStatus :=
    { status := evaluation.status, reason := evaluation.reason,
      lastChecked := some lastChecked, risk := getRisk evaluation.status }
  let s : Store := { s with state := s.state.set page.id status }
  recordHistory page.id record s

/-- One iteration of the start-up loop `landingPages.forEach(...)`. -/
def initPage (s : Store) (page : Page) : Store :=
  { state := s.state.set page.id emptyStatus, history := s.history.set page.id [] }

/-- The stores after the start-up loop over the registry `pages`, starting
from the two empty maps. -/
def initStores (pages : List Page) : Store :=
  pages.foldl initPage { state := JsMap.empty, history := JsMap.empty }

/-- A call that writes to the stores: a completed `performCheck(page)` in some
world, or a direct `recordHistory(pageId, entry)`. -/
inductive Call where
  | performCheck (w : World) (page : Page)
  | recordHistory (pageId : String) (entry : CheckRecord)

/-- Effect of one call on the stores. -/
def Call.apply : Call → Store → Store
  | .performCheck w page, s => Monitor.performCheck w page s
  | .recordHistory pageId entry, s => Monitor.recordHistory pageId entry s

/-- Effect of a sequence of calls, first call first. -/
def runCalls (calls : List Call) (s : Store) : Store :=
  calls.foldl (fun acc c => c.apply acc) s

/-- Effect of a sequence of completed checks, first check first. -/
def runPerformChecks (checks : List (World × Page)) (s : Store) : Store :=
  checks.foldl (fun acc c => performCheck c.1 c.2 acc) s

/-- The agreement between the Status Store entry and the history list of the
id `k`: both at their start-up values, or the entry repeats the verdict and
time stamp of the newest record, whose status follows its two raw results. -/
def StoresAgree (s : Store) (k : String) : Prop :=
  (s.history.get k = some [] ∧ s.state.get k = some emptyStatus) ∨
  ∃ (r : CheckRecord) (rest : List CheckRecord) (v : PageStatus),
    s.history.get k = some (r :: rest) ∧ s.state.get k = some v ∧
    v.status = r.status ∧ v.reason = r.reason ∧ v.lastChecked = some r.lastChecked ∧
    (r.status = "LIVE" ↔ r.dns.ok = true ∧ r.http.ok = true) ∧
    (¬ (r.dns.ok = true ∧ r.http.ok = true) → r.status = "DOWN") ∧
    r.status ≠ "UNKNOWN"

/-! ## Sample worlds -/

/-- A world in which both lookups return no records and the probe answers 200. -/
def worldNoRecords : World :=
  { resolveCname := fun _ => .ok [], resolve4 := fun _ => .ok [],
    fetch := fun _ => .ok (Response.mk "basic" 200),
    now := "2024-01-01T00:00:00.000Z" }

/-- A world in which both lookups throw and the probe fails too. -/
def worldLookupErrors : World :=
  { resolveCname := fun d => .error (.error ("queryCname ENODATA " ++ d)),
    resolve4 := fun d => .error (.error ("queryA ENOTFOUND " ++ d)),
    fetch := fun _ => .error (.error "fetch failed"),
    now := "2024-01-01T00:05:00.000Z" }

/-- A world with a matching CNAME record, a foreign A record and a 200 answer. -/
def worldCname : World :=
  { resolveCname := fun _ => .ok ["foo.vercel-dns.com"],
    resolve4 := fun _ => .ok ["1.2.3.4"],
    fetch := fun _ => .ok (Response.mk "basic" 200),
    now := "2024-01-01T00:10:00.000Z" }

/-- A world without CNAME records (the lookup throws), with the expected A
record and a 200 answer. -/
def worldExpectedA : World :=
  { resolveCname := fun d => .error (.error ("queryCname ENODATA " ++ d)),
    resolve4 := fun _ => .ok ["76.76.21.21"],
    fetch := fun _ => .ok (Response.mk "basic" 200),
    now := "2024-01-01T00:15:00.000Z" }

/-- A world without CNAME records (the lookup throws), with the single A
record `1.2.3.4` and a 200 answer. -/
def worldForeignA : World :=
  { resolveCname := fun d => .error (.error ("queryCname ENODATA " ++ d)),
    resolve4 := fun _ => .ok ["1.2.3.4"],
    fetch := fun _ => .ok (Response.mk "basic" 200),
    now := "2024-01-01T00:20:00.000Z" }

/-- A world whose probe answers 404. -/
def worldNotFound : World :=
  { resolveCname := fun _ => .ok ["foo.vercel-dns.com"],
    resolve4 := fun _ => .ok ["76.76.21.21"],
    fetch := fun _ => .ok (Response.mk "basic" 404),
    now := "2024-01-01T00:25:00.000Z" }

/-- The Status Store entry written by a passed check in `worldCname`. -/
def sampleLiveStatus : PageStatus :=
  { status := "LIVE", reason := "All checks passed",
    lastChecked := some "2024-01-01T00:10:00.000Z", risk := "Safe" }

/-- The second registry entry. -/
def pageLp2 : Page :=
  { id := "lp-2", domain := "offer.com", client := "Bright Labs",
    project := "Lead Gen", environment := "campaign" }

/-- The first registry entry. -/
def pageLp1 : Page :=
  { id := "lp-1", domain := "example.com", client := "Acme Co",
    project := "Spring Campaign", environment := "production" }

/-- A passed check of `lp-1` followed by a failed check of `lp-2`. -/
def sampleChecks : List (World × Page) :=
  [(worldCname, pageLp1), (worldLookupErrors, pageLp2)]

/-- A world with a matching CNAME record whose probe answers 301. -/
def worldRedirect : World :=
  { resolveCname := fun _ => .ok ["foo.vercel-dns.com"],
    resolve4 := fun _ => .ok ["76.76.21.21"],
    fetch := fun _ => .ok (Response.mk "basic" 301),
    now := "2024-01-01T00:30:00.000Z" }

/-- A history record of a passed check. -/
def sampleRecord : CheckRecord :=
  { status := "LIVE", reason := "All checks passed", lastChecked := "2024-01-01T00:10:00.000Z",
    dns := { ok := true, type := "CNAME", details := "CNAME points to .vercel-dns.com" },
    http := { ok := true, reason := "HTTP 200" } }

/-- A history record of a failed check. -/
def sampleDownRecord : CheckRecord :=
  { status := "DOWN", reason := "HTTP 404", lastChecked := "2024-01-01T00:25:00.000Z",
    dns := { ok := true, type := "CNAME", details := "CNAME points to .vercel-dns.com" },
    http := { ok := false, reason := "HTTP 404" } }

/-- Stores in which the history list of `lp-1` is full: 99 failed checks
(newest) followed by one passed check (oldest). -/
def fullStore : Store :=
  { state := (initStores landingPages).state,
    history := ⟨[("lp-1", List.replicate 99 sampleDownRecord ++ [sampleRecord]), ("lp-2", [])]⟩ }

/-! ## Lemmas on the `Map` model -/

namespace JsMap

variable {V : Type}

theorem lookup_update_same (k : String) (v : V) (l : List (String × V)) :
    lookup k (update k v l) = some v := by
  induction l with
  | nil => simp [update, lookup]
  | cons hd tl ih =>
    obtain ⟨k', v'⟩ := hd
    by_cases h : k' = k
    · simp [update, lookup, h]
    · simp [update, lookup, h, ih]

theorem lookup_update_other {k k' : String} (h : k' ≠ k) (v : V) (l : List (String × V)) :
    lookup k' (update k v l) = lookup k' l := by
  induction l with
  | nil => simp [update, lookup, h.symm]
  | cons hd tl ih =>
    obtain ⟨k₀, v₀⟩ := hd
    by_cases h₀ : k₀ = k
    · subst h₀
      simp [update, lookup, h.symm]
    · by_cases h₁ : k₀ = k'
      · subst h₁
        simp [update, lookup, h]
      · simp [update, lookup, h₀, h₁, ih]

theorem get_set_same (m : JsMap V) (k : String) (v : V) : (m.set k v).get k = some v :=
  lookup_update_same k v m.entries

theorem get_set_other (m : JsMap V) {k k' : String} (h : k' ≠ k) (v : V) :
    (m.set k v).get k' = m.get k' :=
  lookup_update_other h v m.entries

end JsMap

/-! ## Lemmas on strings -/

theorem endsWith_iff (s suffix : String) :
    endsWith s suffix = true ↔ ∃ pre : String, s = pre ++ suffix := by
  unfold endsWith
  rw [List.isSuffixOf_iff_suffix]
  constructor
  · rintro ⟨t, ht⟩
    refine ⟨⟨t⟩, ?_⟩
    apply String.ext
    simp [String.data_append, ht]
  · rintro ⟨pre, rfl⟩
    exact ⟨pre.data, by simp [String.data_append]⟩

/-! ## The status evaluator -/

/-- C1: `evaluateStatus` is a total function of its two arguments; when
`dns.ok` is false it returns DOWN with the DNS details whatever the HTTP result
is, when `dns.ok` is true and `http.ok` is false it returns DOWN with the HTTP
reason, and otherwise it returns LIVE with reason "All checks passed". -/
theorem evaluateStatus_spec (dns : DnsResult) (http : HttpResult) :
    (dns.ok = false →
      evaluateStatus dns http = { status := "DOWN", reason := dns.details }) ∧
    (dns.ok = true → http.ok = false →
      evaluateStatus dns http = { status := "DOWN", reason := http.reason }) ∧
    (dns.ok = true → http.ok = true →
      evaluateStatus dns http = { status := "LIVE", reason := "All checks passed" }) := by
  refine ⟨?_, ?_, ?_⟩
  · intro h
    simp [evaluateStatus, h]
  · intro h₁ h₂
    simp [evaluateStatus, h₁, h₂]
  · intro h₁ h₂
    simp [evaluateStatus, h₁, h₂]

/-- Instance of C1 with both checks failing (the DNS reason wins), with only
the HTTP check failing, and with both passing. -/
theorem evaluateStatus_spec_witness :
    evaluateStatus ⟨false, "A", "dns reason"⟩ ⟨false, "http reason"⟩ = ⟨"DOWN", "dns reason"⟩ ∧
    evaluateStatus ⟨true, "A", "dns reason"⟩ ⟨false, "http reason"⟩ = ⟨"DOWN", "http reason"⟩ ∧
    evaluateStatus ⟨true, "A", "dns reason"⟩ ⟨true, "HTTP 200"⟩ = ⟨"LIVE", "All checks passed"⟩ :=
  ⟨(evaluateStatus_spec ⟨false, "A", "dns reason"⟩ ⟨false, "http reason"⟩).1 rfl,
   (evaluateStatus_spec ⟨true, "A", "dns reason"⟩ ⟨false, "http reason"⟩).2.1 rfl rfl,
   (evaluateStatus_spec ⟨true, "A", "dns reason"⟩ ⟨true, "HTTP 200"⟩).2.2 rfl rfl⟩

/-! ## The DNS verifier -/

/-- C2: when the CNAME lookup succeeds with a non-empty list, `checkDns`
returns type CNAME, `ok` holds exactly when some returned record ends with
".vercel-dns.com", and every world with the same CNAME answer (whatever its
A lookup does) gives the same result. -/
theorem checkDns_cname_final (w : World) (domain : String) (cnames : List String)
    (hc : w.resolveCname domain = .ok cnames) (hne : cnames ≠ []) :
    (checkDns w domain).type = "CNAME" ∧
    ((checkDns w domain).ok = true ↔
      ∃ record ∈ cnames, ∃ pre : String, record = pre ++ ".vercel-dns.com") ∧
    ∀ w' : World, w'.resolveCname domain = .ok cnames →
      checkDns w' domain = checkDns w domain := by
  have hlen : cnames.length ≠ 0 := by
    intro h
    exact hne (List.length_eq_zero.mp h)
  refine ⟨?_, ?_, ?_⟩
  · simp [checkDns, hc, hlen]
  · simp only [checkDns, hc, hlen, ne_eq, not_false_eq_true, if_true, List.any_eq_true,
      endsWith_iff, EXPECTED_CNAME_SUFFIX]
  · intro w' hc'
    simp [checkDns, hc, hc', hlen]

/-- Instance of C2: a matching CNAME record next to a foreign A record. -/
theorem checkDns_cname_final_witness :
    worldCname.resolveCname "example.com" = .ok ["foo.vercel-dns.com"] ∧
    (checkDns worldCname "example.com").type = "CNAME" ∧
    ((checkDns worldCname "example.com").ok = true ↔
      ∃ record ∈ ["foo.vercel-dns.com"], ∃ pre : String, record = pre ++ ".vercel-dns.com") ∧
    ∀ w' : World, w'.resolveCname "example.com" = .ok ["foo.vercel-dns.com"] →
      checkDns w' "example.com" = checkDns worldCname "example.com" :=
  ⟨rfl, checkDns_cname_final worldCname "example.com" ["foo.vercel-dns.com"] rfl (by simp)⟩

/-- C3: when the CNAME lookup returns an empty list or throws, and the A
lookup returns a non-empty list, `checkDns` returns type A and `ok` holds
exactly when "76.76.21.21" is one of the addresses. -/
theorem checkDns_a_step (w : World) (domain : String) (addresses : List String)
    (hc : w.resolveCname domain = .ok [] ∨ ∃ e, w.resolveCname domain = .error e)
    (ha : w.resolve4 domain = .ok addresses) (hne : addresses ≠ []) :
    (checkDns w domain).type = "A" ∧
    ((checkDns w domain).ok = true ↔ "76.76.21.21" ∈ addresses) := by
  have hlen : addresses.length ≠ 0 := by
    intro h
    exact hne (List.length_eq_zero.mp h)
  rcases hc with hc | ⟨e, hc⟩
  · simp [checkDns, checkDnsA, hc, ha, hlen, EXPECTED_A_RECORD]
  · simp [checkDns, checkDnsA, hc, ha, hlen, EXPECTED_A_RECORD]

/-- Instance of C3: the CNAME lookup throws and the A set holds the expected
address. -/
theorem checkDns_a_step_witness :
    (∃ e, worldExpectedA.resolveCname "example.com" = .error e) ∧
    (checkDns worldExpectedA "example.com").type = "A" ∧
    ((checkDns worldExpectedA "example.com").ok = true ↔
      "76.76.21.21" ∈ ["76.76.21.21"]) :=
  ⟨⟨_, rfl⟩,
   checkDns_a_step worldExpectedA "example.com" ["76.76.21.21"] (Or.inr ⟨_, rfl⟩) rfl (by simp)⟩

/-! ## Store writes of one check -/

theorem recordHistory_state (pageId : String) (entry : CheckRecord) (s : Store) :
    (recordHistory pageId entry s).state = s.state := rfl

theorem recordHistory_history_get (pageId : String) (entry : CheckRecord) (s : Store) :
    (recordHistory pageId entry s).history.get pageId =
      some ((entry :: (s.history.get pageId).getD []).take 100) := by
  simp [recordHistory, JsMap.get_set_same]

theorem performCheck_state_get (w : World) (page : Page) (s : Store) :
    (performCheck w page s).state.get page.id =
      some { status := (evaluateStatus (checkDns w page.domain) (checkHttp w page.domain)).status,
             reason := (evaluateStatus (checkDns w page.domain) (checkHttp w page.domain)).reason,
             lastChecked := some w.now,
             risk := getRisk
               (evaluateStatus (checkDns w page.domain) (checkHttp w page.domain)).status } := by
  simp [performCheck, recordHistory_state, JsMap.get_set_same]

theorem performCheck_history_get (w : World) (page : Page) (s : Store) :
    (performCheck w page s).history.get page.id =
      some (({ status := (evaluateStatus (checkDns w page.domain) (checkHttp w page.domain)).status,
               reason := (evaluateStatus (checkDns w page.domain) (checkHttp w page.domain)).reason,
               lastChecked := w.now,
               dns := checkDns w page.domain,
               http := checkHttp w page.domain } ::
             (s.history.get page.id).getD []).take 100) := by
  simp only [performCheck, recordHistory_history_get]

theorem evaluateStatus_of_dns_not_ok {dns : DnsResult} (h : dns.ok = false) (http : HttpResult) :
    evaluateStatus dns http = { status := "DOWN", reason := dns.details } := by
  simp [evaluateStatus, h]

/-- C4, as stated, fails: when both lookups return an empty list the details
are "No DNS records found", not "no records found", and so is the reason of
the check; when the lookups throw, the details are the text of the error. -/
theorem checkDns_no_records_counterexample :
    worldNoRecords.resolveCname "example.com" = .ok [] ∧
    worldNoRecords.resolve4 "example.com" = .ok [] ∧
    checkDns worldNoRecords "example.com" =
      { ok := false, type := "NONE", details := "No DNS records found" } ∧
    (checkDns worldNoRecords "example.com").details ≠ "no records found" ∧
    (performCheck worldNoRecords pageLp1 (initStores landingPages)).state.get "lp-1" =
      some { status := "DOWN", reason := "No DNS records found",
             lastChecked := some "2024-01-01T00:00:00.000Z", risk := "High" } ∧
    checkDns worldLookupErrors "example.com" =
      { ok := false, type := "NONE", details := "queryA ENOTFOUND example.com" } :=
  ⟨rfl, rfl, by decide, by decide, by decide, by decide⟩

/-- C4 (amended): when neither lookup yields records (each returns an empty
list or throws), `checkDns` returns `ok = false` and type NONE; the details are
"No DNS records found" when both lookups return an empty list, the text of the
A-lookup error when the A lookup throws, and the text of the CNAME-lookup
error when only the CNAME lookup throws. A check of such a domain, for any HTTP
outcome, writes status DOWN, risk High and these details as the reason. -/
theorem checkDns_no_records (w : World) (page : Page) (s : Store)
    (hc : w.resolveCname page.domain = .ok [] ∨ ∃ e, w.resolveCname page.domain = .error e)
    (ha : w.resolve4 page.domain = .ok [] ∨ ∃ e, w.resolve4 page.domain = .error e) :
    (checkDns w page.domain).ok = false ∧
    (checkDns w page.domain).type = "NONE" ∧
    (w.resolveCname page.domain = .ok [] → w.resolve4 page.domain = .ok [] →
      (checkDns w page.domain).details = "No DNS records found") ∧
    (∀ e, w.resolve4 page.domain = .error e →
      (checkDns w page.domain).details = normalizeError e) ∧
    (∀ e, w.resolveCname page.domain = .error e → w.resolve4 page.domain = .ok [] →
      (checkDns w page.domain).details = normalizeError e) ∧
    (performCheck w page s).state.get page.id =
      some { status := "DOWN", reason := (checkDns w page.domain).details,
             lastChecked := some w.now, risk := "High" } := by
  have hok : (checkDns w page.domain).ok = false := by
    rcases hc with hc | ⟨e, hc⟩ <;> rcases ha with ha | ⟨e', ha⟩ <;>
      simp [checkDns, checkDnsA, hc, ha]
  refine ⟨hok, ?_, ?_, ?_, ?_, ?_⟩
  · rcases hc with hc | ⟨e, hc⟩ <;> rcases ha with ha | ⟨e', ha⟩ <;>
      simp [checkDns, checkDnsA, hc, ha]
  · intro hc' ha'
    simp [checkDns, checkDnsA, hc', ha']
  · intro e ha'
    rcases hc with hc | ⟨e', hc⟩ <;> simp [checkDns, checkDnsA, hc, ha']
  · intro e hc' ha'
    simp [checkDns, checkDnsA, hc', ha']
  · rw [performCheck_state_get, evaluateStatus_of_dns_not_ok hok]
    simp [getRisk]

/-- Instance of C4 (amended): both lookups throw and the probe fails; the
reason is the text of the A-lookup error. -/
theorem checkDns_no_records_witness :
    (∃ e, worldLookupErrors.resolveCname pageLp1.domain = .error e) ∧
    (∃ e, worldLookupErrors.resolve4 pageLp1.domain = .error e) ∧
    (checkDns worldLookupErrors pageLp1.domain).details = "queryA ENOTFOUND example.com" ∧
    (performCheck worldLookupErrors pageLp1 (initStores landingPages)).state.get pageLp1.id =
      some { status := "DOWN", reason := (checkDns worldLookupErrors pageLp1.domain).details,
             lastChecked := some worldLookupErrors.now, risk := "High" } :=
  ⟨⟨_, rfl⟩, ⟨_, rfl⟩,
   (checkDns_no_records worldLookupErrors pageLp1 (initStores landingPages)
      (Or.inr ⟨_, rfl⟩) (Or.inr ⟨_, rfl⟩)).2.2.2.1 _ rfl,
   (checkDns_no_records worldLookupErrors pageLp1 (initStores landingPages)
      (Or.inr ⟨_, rfl⟩) (Or.inr ⟨_, rfl⟩)).2.2.2.2.2⟩

/-! ## Keys of the `Map` model -/

namespace JsMap

variable {V : Type}

theorem mem_keys_update (k k' : String) (v : V) (l : List (String × V)) :
    k' ∈ (update k v l).map Prod.fst ↔ k' = k ∨ k' ∈ l.map Prod.fst := by
  induction l with
  | nil => simp [update]
  | cons hd tl ih =>
    obtain ⟨k₀, v₀⟩ := hd
    by_cases h₀ : k₀ = k
    · subst h₀
      simp [update]
    · simp only [update, h₀, if_false, List.map_cons, List.mem_cons, ih]
      tauto

theorem keys_update_of_mem {k : String} (v : V) {l : List (String × V)}
    (h : k ∈ l.map Prod.fst) : (update k v l).map Prod.fst = l.map Prod.fst := by
  induction l with
  | nil => simp at h
  | cons hd tl ih =>
    obtain ⟨k₀, v₀⟩ := hd
    by_cases h₀ : k₀ = k
    · simp [update, h₀]
    · have htl : k ∈ tl.map Prod.fst := by
        simp only [List.map_cons, List.mem_cons] at h
        rcases h with h | h
        · exact absurd h.symm h₀
        · exact h
      simp [update, h₀, ih htl]

theorem nodup_keys_update (k : String) (v : V) {l : List (String × V)}
    (h : (l.map Prod.fst).Nodup) : ((update k v l).map Prod.fst).Nodup := by
  induction l with
  | nil => simp [update]
  | cons hd tl ih =>
    obtain ⟨k₀, v₀⟩ := hd
    simp only [List.map_cons, List.nodup_cons] at h
    by_cases h₀ : k₀ = k
    · simp only [update, h₀, if_true, List.map_cons, List.nodup_cons]
      exact ⟨h₀ ▸ h.1, h.2⟩
    · simp only [update, if_neg h₀, List.map_cons, List.nodup_cons, mem_keys_update]
      exact ⟨fun hc => hc.elim h₀ h.1, ih h.2⟩

theorem mem_keys_set (m : JsMap V) (k k' : String) (v : V) :
    k' ∈ (m.set k v).keys ↔ k' = k ∨ k' ∈ m.keys :=
  mem_keys_update k k' v m.entries

theorem keys_set_of_mem (m : JsMap V) {k : String} (v : V) (h : k ∈ m.keys) :
    (m.set k v).keys = m.keys :=
  keys_update_of_mem v h

theorem nodup_keys_set (m : JsMap V) (k : String) (v : V) (h : m.keys.Nodup) :
    (m.set k v).keys.Nodup :=
  nodup_keys_update k v h

theorem get_set (m : JsMap V) (k k' : String) (v : V) :
    (m.set k v).get k' = if k' = k then some v else m.get k' := by
  by_cases h : k' = k
  · subst h
    simp [get_set_same]
  · simp [h, get_set_other]

end JsMap

/-! ## The start-up loop -/

theorem foldl_initPage_state_get (pages : List Page) (s : Store) (k : String) :
    (pages.foldl initPage s).state.get k =
      if k ∈ pages.map Page.id then some emptyStatus else s.state.get k := by
  induction pages generalizing s with
  | nil => simp
  | cons p ps ih =>
    simp only [List.foldl_cons, ih, List.map_cons, List.mem_cons, initPage, JsMap.get_set]
    by_cases h₁ : k ∈ ps.map Page.id
    · simp [h₁]
    · by_cases h₂ : k = p.id
      · simp [h₂]
      · simp [h₁, h₂]

theorem foldl_initPage_history_get (pages : List Page) (s : Store) (k : String) :
    (pages.foldl initPage s).history.get k =
      if k ∈ pages.map Page.id then some [] else s.history.get k := by
  induction pages generalizing s with
  | nil => simp
  | cons p ps ih =>
    simp only [List.foldl_cons, ih, List.map_cons, List.mem_cons, initPage, JsMap.get_set]
    by_cases h₁ : k ∈ ps.map Page.id
    · simp [h₁]
    · by_cases h₂ : k = p.id
      · simp [h₂]
      · simp [h₁, h₂]

theorem initStores_state_get (pages : List Page) (k : String) :
    (initStores pages).state.get k =
      if k ∈ pages.map Page.id then some emptyStatus else none := by
  rw [initStores, foldl_initPage_state_get]
  rfl

theorem initStores_history_get (pages : List Page) (k : String) :
    (initStores pages).history.get k =
      if k ∈ pages.map Page.id then some [] else none := by
  rw [initStores, foldl_initPage_history_get]
  rfl

/-! ## Invariants of the stores -/

theorem recordHistory_history_get_any (pageId : String) (entry : CheckRecord) (s : Store)
    (k : String) :
    (recordHistory pageId entry s).history.get k =
      if k = pageId then some ((entry :: (s.history.get pageId).getD []).take 100)
      else s.history.get k := by
  simp [recordHistory, JsMap.get_set]

theorem performCheck_state_get_any (w : World) (page : Page) (s : Store) (k : String) :
    (performCheck w page s).state.get k =
      if k = page.id then
        some { status := (evaluateStatus (checkDns w page.domain) (checkHttp w page.domain)).status,
               reason := (evaluateStatus (checkDns w page.domain) (checkHttp w page.domain)).reason,
               lastChecked := some w.now,
               risk := getRisk
                 (evaluateStatus (checkDns w page.domain) (checkHttp w page.domain)).status }
      else s.state.get k := by
  simp [performCheck, recordHistory_state, JsMap.get_set]

theorem performCheck_history_get_any (w : World) (page : Page) (s : Store) (k : String) :
    (performCheck w page s).history.get k =
      if k = page.id then
        some (({ status := (evaluateStatus (checkDns w page.domain) (checkHttp w page.domain)).status,
                 reason := (evaluateStatus (checkDns w page.domain) (checkHttp w page.domain)).reason,
                 lastChecked := w.now,
                 dns := checkDns w page.domain,
                 http := checkHttp w page.domain } ::
               (s.history.get page.id).getD []).take 100)
      else s.history.get k := by
  simp only [performCheck, recordHistory_history_get_any]

theorem evaluateStatus_status (dns : DnsResult) (http : HttpResult) :
    (evaluateStatus dns http).status = "DOWN" ∨ (evaluateStatus dns http).status = "LIVE" := by
  unfold evaluateStatus
  split
  · exact Or.inl rfl
  · split
    · exact Or.inl rfl
    · exact Or.inr rfl

theorem recordHistory_bounded (pageId : String) (entry : CheckRecord) (s : Store)
    (h : ∀ k, ((s.history.get k).getD []).length ≤ 100) (k : String) :
    (((recordHistory pageId entry s).history.get k).getD []).length ≤ 100 := by
  rw [recordHistory_history_get_any]
  by_cases hk : k = pageId
  · simp only [hk, if_true, Option.getD_some]
    exact List.length_take_le 100 _
  · simp only [hk, if_false]
    exact h k

theorem performCheck_bounded (w : World) (page : Page) (s : Store)
    (h : ∀ k, ((s.history.get k).getD []).length ≤ 100) (k : String) :
    (((performCheck w page s).history.get k).getD []).length ≤ 100 := by
  rw [performCheck_history_get_any]
  by_cases hk : k = page.id
  · simp only [hk, if_true, Option.getD_some]
    exact List.length_take_le 100 _
  · simp only [hk, if_false]
    exact h k

theorem runCalls_bounded (calls : List Call) (s : Store)
    (h : ∀ k, ((s.history.get k).getD []).length ≤ 100) (k : String) :
    (((runCalls calls s).history.get k).getD []).length ≤ 100 := by
  induction calls generalizing s with
  | nil => exact h k
  | cons c cs ih =>
    apply ih
    intro k'
    cases c with
    | performCheck w page => exact performCheck_bounded w page s h k'
    | recordHistory pageId entry => exact recordHistory_bounded pageId entry s h k'

theorem initStores_bounded (pages : List Page) (k : String) :
    (((initStores pages).history.get k).getD []).length ≤ 100 := by
  rw [initStores_history_get]
  split <;> simp

/-- C5: in every state reached from the start-up initialisation by any
sequence of `performCheck` and `recordHistory` calls, the history list of every
id (`history.get(id) ?? []`) has at most 100 entries, and right after a further
`recordHistory(id, entry)` the list stored for `id` has `entry` at index 0. -/
theorem history_bounded_newest_first (pages : List Page) (calls : List Call) :
    (∀ k, (((runCalls calls (initStores pages)).history.get k).getD []).length ≤ 100) ∧
    (∀ pageId entry,
      ((recordHistory pageId entry (runCalls calls (initStores pages))).history.get pageId).bind
        List.head? = some entry) := by
  refine ⟨runCalls_bounded calls _ (initStores_bounded pages), ?_⟩
  intro pageId entry
  rw [recordHistory_history_get]
  simp

/-! ## Risk -/

theorem performCheck_risk (w : World) (page : Page) (s : Store)
    (h : ∀ k v, s.state.get k = some v →
      v.risk = getRisk v.status ∧
        (v.status = "LIVE" ∨ v.status = "DOWN" ∨ v.status = "UNKNOWN"))
    (k : String) (v : PageStatus) (hv : (performCheck w page s).state.get k = some v) :
    v.risk = getRisk v.status ∧
      (v.status = "LIVE" ∨ v.status = "DOWN" ∨ v.status = "UNKNOWN") := by
  rw [performCheck_state_get_any] at hv
  by_cases hk : k = page.id
  · simp only [hk, if_true, Option.some.injEq] at hv
    subst hv
    refine ⟨rfl, ?_⟩
    rcases evaluateStatus_status (checkDns w page.domain) (checkHttp w page.domain) with h' | h'
    · exact Or.inr (Or.inl h')
    · exact Or.inl h'
  · simp only [hk, if_false] at hv
    exact h k v hv

theorem runPerformChecks_risk (checks : List (World × Page)) (s : Store)
    (h : ∀ k v, s.state.get k = some v →
      v.risk = getRisk v.status ∧
        (v.status = "LIVE" ∨ v.status = "DOWN" ∨ v.status = "UNKNOWN"))
    (k : String) (v : PageStatus) (hv : (runPerformChecks checks s).state.get k = some v) :
    v.risk = getRisk v.status ∧
      (v.status = "LIVE" ∨ v.status = "DOWN" ∨ v.status = "UNKNOWN") := by
  induction checks generalizing s with
  | nil => exact h k v hv
  | cons c cs ih =>
    exact ih (performCheck c.1 c.2 s) (performCheck_risk c.1 c.2 s h) hv

theorem initStores_risk (pages : List Page) (k : String) (v : PageStatus)
    (hv : (initStores pages).state.get k = some v) :
    v.risk = getRisk v.status ∧
      (v.status = "LIVE" ∨ v.status = "DOWN" ∨ v.status = "UNKNOWN") := by
  rw [initStores_state_get] at hv
  split at hv
  · simp only [Option.some.injEq] at hv
    subst hv
    exact ⟨by decide, Or.inr (Or.inr rfl)⟩
  · simp at hv

/-- C6: in every state reached from the start-up initialisation by any
sequence of `performCheck` calls, every Status Store entry has a status among
LIVE, DOWN and UNKNOWN and its risk is `getRisk` of that status: Safe for
LIVE, High for DOWN, Unknown for UNKNOWN; and `getRisk` maps LIVE to Safe,
DOWN to High and every other status to Unknown. -/
theorem risk_determined_by_status (pages : List Page) (checks : List (World × Page))
    (k : String) (v : PageStatus)
    (hv : (runPerformChecks checks (initStores pages)).state.get k = some v) :
    v.risk = getRisk v.status ∧
    (v.status = "LIVE" ∨ v.status = "DOWN" ∨ v.status = "UNKNOWN") ∧
    (v.status = "LIVE" → v.risk = "Safe") ∧
    (v.status = "DOWN" → v.risk = "High") ∧
    (v.status = "UNKNOWN" → v.risk = "Unknown") ∧
    getRisk "LIVE" = "Safe" ∧ getRisk "DOWN" = "High" ∧
    (∀ status : String, status ≠ "LIVE" → status ≠ "DOWN" → getRisk status = "Unknown") := by
  obtain ⟨hrisk, hstatus⟩ :=
    runPerformChecks_risk checks (initStores pages) (initStores_risk pages) k v hv
  refine ⟨hrisk, hstatus, ?_, ?_, ?_, by decide, by decide, ?_⟩
  · intro h
    rw [hrisk, h]
    decide
  · intro h
    rw [hrisk, h]
    decide
  · intro h
    rw [hrisk, h]
    decide
  · intro status h₁ h₂
    simp [getRisk, h₁, h₂]

/-- Instance of C6: the entry of `lp-1` after one passed check of it. -/
theorem risk_determined_by_status_witness :
    (runPerformChecks [(worldCname, pageLp1)] (initStores landingPages)).state.get "lp-1" =
      some sampleLiveStatus ∧
    sampleLiveStatus.risk = getRisk sampleLiveStatus.status ∧
    (sampleLiveStatus.status = "LIVE" → sampleLiveStatus.risk = "Safe") :=
  ⟨by decide,
   (risk_determined_by_status landingPages [(worldCname, pageLp1)] "lp-1"
      sampleLiveStatus (by decide)).1,
   (risk_determined_by_status landingPages [(worldCname, pageLp1)] "lp-1"
      sampleLiveStatus (by decide)).2.2.1⟩

/-! ## The HTTP verifier -/

theorem checkHttp_of_error {w : World} {domain : String} {e : Thrown}
    (hf : w.fetch ("https://" ++ domain) = .error e) :
    checkHttp w domain = { ok := false, reason := "SSL/HTTPS error: " ++ normalizeError e } := by
  simp only [checkHttp, hf]

theorem checkHttp_of_ok {w : World} {domain : String} {response : Response}
    (hf : w.fetch ("https://" ++ domain) = .ok response) :
    checkHttp w domain =
      if response.type = "opaqueredirect" ∨ (response.status ≥ 300 ∧ response.status < 400) then
        { ok := false, reason := "Unexpected redirect (" ++ toString response.status ++ ")" }
      else if response.status ≠ 200 then
        { ok := false, reason := "HTTP " ++ toString response.status }
      else { ok := true, reason := "HTTP 200" } := by
  simp only [checkHttp, hf]

/-- C7: `checkHttp` is a total function returning a result object (nothing is
raised). `ok` is true exactly when the request settled with a response that is
not an opaque redirect and has status 200, and then the reason is "HTTP 200";
for a response that is no redirect and has a status `s` other than 200 the
result is `ok = false` with reason "HTTP s"; for a thrown transport error the
result is `ok = false` with reason "SSL/HTTPS error: " followed by the error
text. -/
theorem checkHttp_spec (w : World) (domain : String) :
    ((checkHttp w domain).ok = true ↔
      ∃ response, w.fetch ("https://" ++ domain) = .ok response ∧
        response.type ≠ "opaqueredirect" ∧ response.status = 200) ∧
    ((checkHttp w domain).ok = true → (checkHttp w domain).reason = "HTTP 200") ∧
    (∀ response, w.fetch ("https://" ++ domain) = .ok response →
      response.type ≠ "opaqueredirect" →
      ¬ (300 ≤ response.status ∧ response.status < 400) → response.status ≠ 200 →
      checkHttp w domain = { ok := false, reason := "HTTP " ++ toString response.status }) ∧
    (∀ e, w.fetch ("https://" ++ domain) = .error e →
      checkHttp w domain = { ok := false, reason := "SSL/HTTPS error: " ++ normalizeError e } ∧
      ∃ pre : String, (checkHttp w domain).reason = pre ++ normalizeError e) := by
  refine ⟨?_, ?_, ?_, ?_⟩
  · cases hf : w.fetch ("https://" ++ domain) with
    | error e => simp [checkHttp_of_error hf]
    | ok response =>
      rw [checkHttp_of_ok hf]
      simp only [Except.ok.injEq, exists_eq_left']
      by_cases h₁ : response.type = "opaqueredirect" ∨
          (response.status ≥ 300 ∧ response.status < 400)
      · rw [if_pos h₁]
        simp only [Bool.false_eq_true, false_iff, not_and]
        intro hty h200
        rcases h₁ with h₁ | h₁
        · exact hty h₁
        · omega
      · rw [if_neg h₁]
        by_cases h₂ : response.status = 200
        · rw [if_neg (not_not.mpr h₂)]
          simp only [true_iff]
          exact ⟨fun h => h₁ (Or.inl h), h₂⟩
        · rw [if_pos h₂]
          simp [h₂]
  · cases hf : w.fetch ("https://" ++ domain) with
    | error e => simp [checkHttp_of_error hf]
    | ok response =>
      rw [checkHttp_of_ok hf]
      by_cases h₁ : response.type = "opaqueredirect" ∨
          (response.status ≥ 300 ∧ response.status < 400)
      · rw [if_pos h₁]
        simp
      · rw [if_neg h₁]
        by_cases h₂ : response.status = 200
        · rw [if_neg (not_not.mpr h₂)]
          simp
        · rw [if_pos h₂]
          simp
  · intro response hf hty hrange h200
    have h₁ : ¬ (response.type = "opaqueredirect" ∨
        (response.status ≥ 300 ∧ response.status < 400)) := by
      rintro (h | h)
      · exact hty h
      · exact hrange h
    rw [checkHttp_of_ok hf, if_neg h₁, if_pos h200]
  · intro e hf
    exact ⟨checkHttp_of_error hf, "SSL/HTTPS error: ", by rw [checkHttp_of_error hf]⟩

/-- Instance of C7: a 404 answer gives `ok = false` with reason "HTTP 404". -/
theorem checkHttp_spec_witness :
    worldNotFound.fetch ("https://" ++ "example.com") = .ok (Response.mk "basic" 404) ∧
    checkHttp worldNotFound "example.com" = { ok := false, reason := "HTTP 404" } :=
  ⟨rfl,
   (checkHttp_spec worldNotFound "example.com").2.2.1 (Response.mk "basic" 404) rfl
     (by decide) (by decide) (by decide)⟩

/-! ## Start-up state -/

/-- C8: after the start-up initialisation and before any check has written,
the Status Store maps every registered id to the UNKNOWN default entry and the
History Store maps it to the empty list. -/
theorem initStores_spec (pages : List Page) (page : Page) (hp : page ∈ pages) :
    (initStores pages).state.get page.id =
      some { status := "UNKNOWN", reason := "Pending first check",
             lastChecked := none, risk := "Unknown" } ∧
    (initStores pages).history.get page.id = some [] := by
  have hmem : page.id ∈ pages.map Page.id := List.mem_map_of_mem _ hp
  rw [initStores_state_get, initStores_history_get]
  simp only [hmem, if_true, emptyStatus, and_self]

/-- Instance of C8: the first entry of the registry of the source. -/
theorem initStores_spec_witness :
    pageLp1 ∈ landingPages ∧
    (initStores landingPages).state.get "lp-1" =
      some { status := "UNKNOWN", reason := "Pending first check",
             lastChecked := none, risk := "Unknown" } ∧
    (initStores landingPages).history.get "lp-1" = some [] :=
  ⟨by decide, initStores_spec landingPages pageLp1 (by decide)⟩

/-! ## Key sets of the two stores -/

theorem JsMap.get_isSome_iff_mem_keys {V : Type} (m : JsMap V) (k : String) :
    (m.get k).isSome = true ↔ k ∈ m.keys := by
  obtain ⟨l⟩ := m
  simp only [JsMap.get, JsMap.keys]
  induction l with
  | nil => simp [JsMap.lookup]
  | cons hd tl ih =>
    obtain ⟨k₀, v₀⟩ := hd
    by_cases h₀ : k₀ = k
    · simp [JsMap.lookup, h₀]
    · simp only [JsMap.lookup, if_neg h₀, ih, List.map_cons, List.mem_cons]
      constructor
      · exact Or.inr
      · rintro (h | h)
        · exact absurd h.symm h₀
        · exact h

theorem foldl_initPage_keys (pages : List Page) (s : Store)
    (hs : s.state.keys.Nodup) (hh : s.history.keys.Nodup) :
    (pages.foldl initPage s).state.keys.Nodup ∧
    (pages.foldl initPage s).history.keys.Nodup ∧
    (∀ k, k ∈ (pages.foldl initPage s).state.keys ↔
      k ∈ pages.map Page.id ∨ k ∈ s.state.keys) ∧
    (∀ k, k ∈ (pages.foldl initPage s).history.keys ↔
      k ∈ pages.map Page.id ∨ k ∈ s.history.keys) := by
  induction pages generalizing s with
  | nil => simp [hs, hh]
  | cons p ps ih =>
    obtain ⟨h₁, h₂, h₃, h₄⟩ := ih (initPage s p)
      (JsMap.nodup_keys_set s.state p.id emptyStatus hs)
      (JsMap.nodup_keys_set s.history p.id [] hh)
    refine ⟨h₁, h₂, ?_, ?_⟩
    · intro k
      rw [List.foldl_cons, h₃ k]
      simp only [initPage, JsMap.mem_keys_set, List.map_cons, List.mem_cons]
      tauto
    · intro k
      rw [List.foldl_cons, h₄ k]
      simp only [initPage, JsMap.mem_keys_set, List.map_cons, List.mem_cons]
      tauto

theorem performCheck_keys (w : World) (page : Page) (s : Store)
    (hs : page.id ∈ s.state.keys) (hh : page.id ∈ s.history.keys) :
    (performCheck w page s).state.keys = s.state.keys ∧
    (performCheck w page s).history.keys = s.history.keys :=
  ⟨JsMap.keys_set_of_mem s.state _ hs, JsMap.keys_set_of_mem s.history _ hh⟩

theorem runPerformChecks_keys (pages : List Page) (checks : List (World × Page)) (s : Store)
    (h : ∀ c ∈ checks, c.2 ∈ pages)
    (hs : ∀ p ∈ pages, p.id ∈ s.state.keys) (hh : ∀ p ∈ pages, p.id ∈ s.history.keys) :
    (runPerformChecks checks s).state.keys = s.state.keys ∧
    (runPerformChecks checks s).history.keys = s.history.keys := by
  induction checks generalizing s with
  | nil => exact ⟨rfl, rfl⟩
  | cons c cs ih =>
    have hc : c.2 ∈ pages := h c (List.mem_cons_self _ _)
    obtain ⟨e₁, e₂⟩ := performCheck_keys c.1 c.2 s (hs _ hc) (hh _ hc)
    obtain ⟨r₁, r₂⟩ := ih (performCheck c.1 c.2 s)
      (fun c' hc' => h c' (List.mem_cons_of_mem _ hc'))
      (fun p hp => e₁ ▸ hs p hp) (fun p hp => e₂ ▸ hh p hp)
    exact ⟨r₁.trans e₁, r₂.trans e₂⟩

/-- C9: in every state reached from the start-up initialisation by any
sequence of `performCheck` calls on registry entries, each store has no
repeated key, the keys of the Status Store are exactly the registered ids, the
keys of the History Store are exactly the registered ids, and `get` finds an
entry in either store exactly for the registered ids. -/
theorem store_keys_are_registry_ids (pages : List Page) (checks : List (World × Page))
    (h : ∀ c ∈ checks, c.2 ∈ pages) :
    (runPerformChecks checks (initStores pages)).state.keys.Nodup ∧
    (runPerformChecks checks (initStores pages)).history.keys.Nodup ∧
    (∀ k, k ∈ (runPerformChecks checks (initStores pages)).state.keys ↔
      k ∈ pages.map Page.id) ∧
    (∀ k, k ∈ (runPerformChecks checks (initStores pages)).history.keys ↔
      k ∈ pages.map Page.id) ∧
    (∀ k, ((runPerformChecks checks (initStores pages)).state.get k).isSome = true ↔
      k ∈ pages.map Page.id) ∧
    (∀ k, ((runPerformChecks checks (initStores pages)).history.get k).isSome = true ↔
      k ∈ pages.map Page.id) := by
  obtain ⟨h₁, h₂, h₃, h₄⟩ := foldl_initPage_keys pages
    { state := JsMap.empty, history := JsMap.empty } List.nodup_nil List.nodup_nil
  have k₃ : ∀ k, k ∈ (initStores pages).state.keys ↔ k ∈ pages.map Page.id := by
    intro k
    have := h₃ k
    simpa [JsMap.keys, JsMap.empty] using this
  have k₄ : ∀ k, k ∈ (initStores pages).history.keys ↔ k ∈ pages.map Page.id := by
    intro k
    have := h₄ k
    simpa [JsMap.keys, JsMap.empty] using this
  obtain ⟨e₁, e₂⟩ := runPerformChecks_keys pages checks (initStores pages) h
    (fun p hp => (k₃ p.id).mpr (List.mem_map_of_mem _ hp))
    (fun p hp => (k₄ p.id).mpr (List.mem_map_of_mem _ hp))
  refine ⟨e₁ ▸ h₁, e₂ ▸ h₂, ?_, ?_, ?_, ?_⟩
  · intro k
    rw [e₁]
    exact k₃ k
  · intro k
    rw [e₂]
    exact k₄ k
  · intro k
    rw [JsMap.get_isSome_iff_mem_keys, e₁]
    exact k₃ k
  · intro k
    rw [JsMap.get_isSome_iff_mem_keys, e₂]
    exact k₄ k

/-- Instance of C9: the registry of the source after a check of `lp-1`
followed by a check of `lp-2`. -/
theorem store_keys_are_registry_ids_witness :
    (∀ c ∈ sampleChecks, c.2 ∈ landingPages) ∧
    (runPerformChecks sampleChecks (initStores landingPages)).state.keys = ["lp-1", "lp-2"] ∧
    (runPerformChecks sampleChecks (initStores landingPages)).history.keys.Nodup ∧
    (∀ k, k ∈ (runPerformChecks sampleChecks (initStores landingPages)).history.keys ↔
      k ∈ landingPages.map Page.id) :=
  have h : ∀ c ∈ sampleChecks, c.2 ∈ landingPages := by
    intro c hc
    simp only [sampleChecks, List.mem_cons, List.mem_singleton, List.not_mem_nil,
      or_false] at hc
    rcases hc with rfl | rfl <;> decide
  ⟨h, by decide,
   (store_keys_are_registry_ids landingPages sampleChecks h).2.1,
   (store_keys_are_registry_ids landingPages sampleChecks h).2.2.2.1⟩

/-! ## Scenario: foreign A record -/

/-- C10: when the CNAME lookup yields no records (empty list or error), the
A lookup returns a non-empty list without "76.76.21.21" and the probe answers
200 without redirect, `performCheck` leaves the Status Store entry of the
target with status DOWN, reason "A record does not include 76.76.21.21" and
risk High (stamped with the time of the check), and the newest history record
carries the same verdict together with the passing HTTP result. -/
theorem performCheck_foreign_a_record (w : World) (page : Page) (s : Store)
    (addresses : List String) (response : Response)
    (hc : w.resolveCname page.domain = .ok [] ∨ ∃ e, w.resolveCname page.domain = .error e)
    (ha : w.resolve4 page.domain = .ok addresses) (hne : addresses ≠ [])
    (hnot : "76.76.21.21" ∉ addresses)
    (hf : w.fetch ("https://" ++ page.domain) = .ok response)
    (hty : response.type ≠ "opaqueredirect") (h200 : response.status = 200) :
    (performCheck w page s).state.get page.id =
      some { status := "DOWN", reason := "A record does not include 76.76.21.21",
             lastChecked := some w.now, risk := "High" } ∧
    ((performCheck w page s).history.get page.id).bind List.head? =
      some { status := "DOWN", reason := "A record does not include 76.76.21.21",
             lastChecked := w.now,
             dns := { ok := false, type := "A",
                      details := "A record does not include 76.76.21.21" },
             http := { ok := true, reason := "HTTP 200" } } := by
  have hlen : addresses.length ≠ 0 := by
    intro h
    exact hne (List.length_eq_zero.mp h)
  have hdns : checkDns w page.domain =
      { ok := false, type := "A", details := "A record does not include 76.76.21.21" } := by
    rcases hc with hc | ⟨e, hc⟩
    · simp [checkDns, checkDnsA, hc, ha, hlen, EXPECTED_A_RECORD, hnot]
    · simp [checkDns, checkDnsA, hc, ha, hlen, EXPECTED_A_RECORD, hnot]
  have hhttp : checkHttp w page.domain = { ok := true, reason := "HTTP 200" } := by
    have h₁ : ¬ (response.type = "opaqueredirect" ∨
        (response.status ≥ 300 ∧ response.status < 400)) := by
      rintro (h | h)
      · exact hty h
      · omega
    rw [checkHttp_of_ok hf, if_neg h₁, if_neg (not_not.mpr h200)]
  have hev : evaluateStatus (checkDns w page.domain) (checkHttp w page.domain) =
      { status := "DOWN", reason := "A record does not include 76.76.21.21" } := by
    rw [hdns]
    exact evaluateStatus_of_dns_not_ok rfl _
  constructor
  · rw [performCheck_state_get, hev]
    simp [getRisk]
  · rw [performCheck_history_get, hev, hdns, hhttp]
    simp

/-- Instance of C10: the single A record `1.2.3.4` and an HTTP 200 answer. -/
theorem performCheck_foreign_a_record_witness :
    worldForeignA.resolve4 pageLp1.domain = .ok ["1.2.3.4"] ∧
    (performCheck worldForeignA pageLp1 (initStores landingPages)).state.get "lp-1" =
      some { status := "DOWN", reason := "A record does not include 76.76.21.21",
             lastChecked := some "2024-01-01T00:20:00.000Z", risk := "High" } :=
  ⟨rfl,
   (performCheck_foreign_a_record worldForeignA pageLp1 (initStores landingPages)
      ["1.2.3.4"] (Response.mk "basic" 200) (Or.inr ⟨_, rfl⟩) rfl (by decide) (by decide)
      rfl (by decide) rfl).1⟩

/-! ## Scenario: redirect -/

/-- C11: when the DNS check is ok and the probe settles with a redirect (an
opaque-redirect response, or a status `s` with `300 ≤ s < 400`), `checkHttp`
returns `ok = false` with reason "Unexpected redirect (s)", `s` being the
status of the response, and `performCheck` leaves the Status Store entry of
the target with status DOWN, risk High and that reason. -/
theorem performCheck_redirect (w : World) (page : Page) (s : Store) (response : Response)
    (hdns : (checkDns w page.domain).ok = true)
    (hf : w.fetch ("https://" ++ page.domain) = .ok response)
    (hred : response.type = "opaqueredirect" ∨ (300 ≤ response.status ∧ response.status < 400)) :
    checkHttp w page.domain =
      { ok := false, reason := "Unexpected redirect (" ++ toString response.status ++ ")" } ∧
    (performCheck w page s).state.get page.id =
      some { status := "DOWN",
             reason := "Unexpected redirect (" ++ toString response.status ++ ")",
             lastChecked := some w.now, risk := "High" } := by
  have hhttp : checkHttp w page.domain =
      { ok := false, reason := "Unexpected redirect (" ++ toString response.status ++ ")" } := by
    rw [checkHttp_of_ok hf, if_pos hred]
  have hev : evaluateStatus (checkDns w page.domain) (checkHttp w page.domain) =
      { status := "DOWN",
        reason := "Unexpected redirect (" ++ toString response.status ++ ")" } := by
    rw [hhttp]
    simp [evaluateStatus, hdns]
  refine ⟨hhttp, ?_⟩
  rw [performCheck_state_get, hev]
  simp [getRisk]

/-- Instance of C11: a matching CNAME record and a 301 answer. -/
theorem performCheck_redirect_witness :
    (checkDns worldRedirect pageLp1.domain).ok = true ∧
    checkHttp worldRedirect pageLp1.domain =
      { ok := false, reason := "Unexpected redirect (301)" } ∧
    (performCheck worldRedirect pageLp1 (initStores landingPages)).state.get "lp-1" =
      some { status := "DOWN", reason := "Unexpected redirect (301)",
             lastChecked := some "2024-01-01T00:30:00.000Z", risk := "High" } :=
  ⟨by decide,
   performCheck_redirect worldRedirect pageLp1 (initStores landingPages)
     (Response.mk "basic" 301) (by decide) rfl (Or.inr (by decide))⟩

/-! ## History retention -/

/-- C12: `recordHistory(id, e)` sets the list of `id` to the first 100
elements of `e` followed by the previous list `old` (`history.get(id) ?? []`):
when `old` has fewer than 100 entries the new list is `e` followed by all of
`old` in order, and when `old` has exactly 100 entries the new list is `e`
followed by `old` without its last entry. -/
theorem recordHistory_spec (pageId : String) (e : CheckRecord) (s : Store) :
    (recordHistory pageId e s).history.get pageId =
      some ((e :: (s.history.get pageId).getD []).take 100) ∧
    (((s.history.get pageId).getD []).length < 100 →
      (recordHistory pageId e s).history.get pageId =
        some (e :: (s.history.get pageId).getD [])) ∧
    (((s.history.get pageId).getD []).length = 100 →
      (recordHistory pageId e s).history.get pageId =
        some (e :: ((s.history.get pageId).getD []).dropLast)) := by
  refine ⟨recordHistory_history_get pageId e s, ?_, ?_⟩
  · intro hlt
    rw [recordHistory_history_get, List.take_of_length_le]
    simp only [List.length_cons]
    omega
  · intro heq
    rw [recordHistory_history_get, List.take_succ_cons, List.dropLast_eq_take, heq]

/-- Instance of C12: a full list of 100 records loses only its oldest record,
and the empty list of a fresh store keeps everything. -/
theorem recordHistory_spec_witness :
    ((fullStore.history.get "lp-1").getD []).length = 100 ∧
    (recordHistory "lp-1" sampleRecord fullStore).history.get "lp-1" =
      some (sampleRecord :: List.replicate 99 sampleDownRecord) ∧
    (recordHistory "lp-1" sampleRecord (initStores landingPages)).history.get "lp-1" =
      some [sampleRecord] :=
  ⟨by decide,
   (recordHistory_spec "lp-1" sampleRecord fullStore).2.2 (by decide),
   (recordHistory_spec "lp-1" sampleRecord (initStores landingPages)).2.1 (by decide)⟩

/-! ## Frame of one check -/

/-- C13: `performCheck(p)` leaves the Status Store entry and the History Store
list of every id other than `p.id` as they were, for every page `p` and every
state of the stores. -/
theorem performCheck_frame (w : World) (page : Page) (s : Store) (k : String)
    (hk : k ≠ page.id) :
    (performCheck w page s).state.get k = s.state.get k ∧
    (performCheck w page s).history.get k = s.history.get k := by
  rw [performCheck_state_get_any, performCheck_history_get_any, if_neg hk, if_neg hk]
  exact ⟨rfl, rfl⟩

/-- Instance of C13: a check of `lp-1` on the full store leaves the entries of
`lp-2` untouched. -/
theorem performCheck_frame_witness :
    "lp-2" ≠ pageLp1.id ∧
    (performCheck worldNotFound pageLp1 fullStore).state.get "lp-2" =
      fullStore.state.get "lp-2" ∧
    (performCheck worldNotFound pageLp1 fullStore).history.get "lp-2" =
      fullStore.history.get "lp-2" :=
  ⟨by decide, performCheck_frame worldNotFound pageLp1 fullStore "lp-2" (by decide)⟩

/-! ## Agreement of the two stores -/

theorem evaluateStatus_live_iff (dns : DnsResult) (http : HttpResult) :
    (evaluateStatus dns http).status = "LIVE" ↔ dns.ok = true ∧ http.ok = true := by
  cases hd : dns.ok <;> cases hh : http.ok <;> simp [evaluateStatus, hd, hh]

theorem evaluateStatus_down_of_not_both (dns : DnsResult) (http : HttpResult)
    (h : ¬ (dns.ok = true ∧ http.ok = true)) : (evaluateStatus dns http).status = "DOWN" := by
  cases hd : dns.ok <;> cases hh : http.ok <;> simp_all [evaluateStatus]

theorem performCheck_agree (w : World) (page : Page) (s : Store) (k : String)
    (h : StoresAgree s k) : StoresAgree (performCheck w page s) k := by
  by_cases hk : k = page.id
  · subst hk
    refine Or.inr
      ⟨{ status := (evaluateStatus (checkDns w page.domain) (checkHttp w page.domain)).status,
         reason := (evaluateStatus (checkDns w page.domain) (checkHttp w page.domain)).reason,
         lastChecked := w.now, dns := checkDns w page.domain,
         http := checkHttp w page.domain },
       ((s.history.get page.id).getD []).take 99, _, ?_,
       performCheck_state_get w page s, rfl, rfl, rfl, ?_, ?_, ?_⟩
    · rw [performCheck_history_get, List.take_succ_cons]
    · exact evaluateStatus_live_iff _ _
    · exact evaluateStatus_down_of_not_both _ _
    · rcases evaluateStatus_status (checkDns w page.domain) (checkHttp w page.domain)
        with h' | h' <;> simp only [h'] <;> decide
  · unfold StoresAgree
    rw [performCheck_state_get_any, performCheck_history_get_any, if_neg hk, if_neg hk]
    exact h

theorem runPerformChecks_agree (checks : List (World × Page)) (s : Store) (k : String)
    (h : StoresAgree s k) : StoresAgree (runPerformChecks checks s) k := by
  induction checks generalizing s with
  | nil => exact h
  | cons c cs ih => exact ih (performCheck c.1 c.2 s) (performCheck_agree c.1 c.2 s k h)

theorem initStores_agree (pages : List Page) (k : String) (hk : k ∈ pages.map Page.id) :
    StoresAgree (initStores pages) k := by
  refine Or.inl ⟨?_, ?_⟩
  · rw [initStores_history_get, if_pos hk]
  · rw [initStores_state_get, if_pos hk]

/-- C14: in every state reached from the start-up initialisation by any
sequence of completed `performCheck` calls, for every registered id either the
history list is empty and the Status Store entry is the UNKNOWN default, or
the history list is non-empty and the status, reason and lastChecked of the
Status Store entry are those of the head record, whose status is LIVE exactly
when both its `dns.ok` and `http.ok` are true, DOWN otherwise, and never
UNKNOWN. -/
theorem stores_agree (pages : List Page) (checks : List (World × Page)) (k : String)
    (hk : k ∈ pages.map Page.id) :
    ((runPerformChecks checks (initStores pages)).history.get k = some [] ∧
      (runPerformChecks checks (initStores pages)).state.get k =
        some { status := "UNKNOWN", reason := "Pending first check",
               lastChecked := none, risk := "Unknown" }) ∨
    ∃ (r : CheckRecord) (rest : List CheckRecord) (v : PageStatus),
      (runPerformChecks checks (initStores pages)).history.get k = some (r :: rest) ∧
      (runPerformChecks checks (initStores pages)).state.get k = some v ∧
      v.status = r.status ∧ v.reason = r.reason ∧ v.lastChecked = some r.lastChecked ∧
      (r.status = "LIVE" ↔ r.dns.ok = true ∧ r.http.ok = true) ∧
      (¬ (r.dns.ok = true ∧ r.http.ok = true) → r.status = "DOWN") ∧
      r.status ≠ "UNKNOWN" :=
  runPerformChecks_agree checks (initStores pages) k (initStores_agree pages k hk)

/-- Instance of C14: the registry of the source after a passed check of `lp-1`
and a failed check of `lp-2`, read at `lp-2`. -/
theorem stores_agree_witness :
    "lp-2" ∈ landingPages.map Page.id ∧
    (((runPerformChecks sampleChecks (initStores landingPages)).history.get "lp-2" = some [] ∧
      (runPerformChecks sampleChecks (initStores landingPages)).state.get "lp-2" =
        some { status := "UNKNOWN", reason := "Pending first check",
               lastChecked := none, risk := "Unknown" }) ∨
    ∃ (r : CheckRecord) (rest : List CheckRecord) (v : PageStatus),
      (runPerformChecks sampleChecks (initStores landingPages)).history.get "lp-2" =
        some (r :: rest) ∧
      (runPerformChecks sampleChecks (initStores landingPages)).state.get "lp-2" = some v ∧
      v.status = r.status ∧ v.reason = r.reason ∧ v.lastChecked = some r.lastChecked ∧
      (r.status = "LIVE" ↔ r.dns.ok = true ∧ r.http.ok = true) ∧
      (¬ (r.dns.ok = true ∧ r.http.ok = true) → r.status = "DOWN") ∧
      r.status ≠ "UNKNOWN") :=
  ⟨by decide, stores_agree landingPages sampleChecks "lp-2" (by decide)⟩

end Monitor
